import Mathlib

/-!
Verification of the learning-item synchronization and categorization layer of
the insight-growth front-end, as described in its specification.

The development shallowly embeds the relevant TypeScript source:

* `src/hooks/useSupabaseSubscription.ts` — the paper snapshot hook
  (`usePaperSubscription`) and the learning-item synchronization adapter
  (`useLearningItemsSubscription`): initial load, per-type bucket lists, and the
  INSERT/UPDATE/DELETE change-notification handlers.
* `src/components/learning-steps/VideoExplanationStep.tsx` — the video payload
  extraction chain.
* `src/components/ui-components/LearningJourney.tsx` — step filtering by
  category, including the special re-ordering applied by the reading filter.

JavaScript dynamic records are embedded as structures whose optional fields are
`Option`-valued, with JS truthiness (`null`/`undefined`/empty string are falsy;
objects and arrays are truthy) made explicit.  The wall clock read by
`new Date().toISOString()` is passed in as an explicit `now : String` argument.
Code that can throw at runtime is embedded with an `Option` result, `none`
standing for the raised error.
-/

/-- JS `o || d` for a string-valued field `o` possibly `null`/`undefined`:
the default `d` is used when `o` is absent or the empty string. -/
def jsOrStr (o : Option String) (d : String) : String :=
  match o with
  | some s => if s = "" then d else s
  | none => d

/-- JS truthiness of a string-valued field: `null`/`undefined` and the empty
string are falsy, every other string is truthy. -/
def strTruthy (o : Option String) : Bool :=
  match o with
  | some s => s != ""
  | none => false

/-- JS `a || b` on two string-or-null values. -/
def jsOrOpt (a b : Option String) : Option String :=
  if strTruthy a then a else b

/-- A video descriptor object as consumed by the video player
(`VideoExplanationStep.tsx` reads exactly `video_id`, `title` and `channel`). -/
structure VideoObj where
  video_id : Option String := none
  title : Option String := none
  channel : Option String := none
deriving DecidableEq

/-- Value of a `videos`-like dynamic field: either a single object or an
array of objects (the code distinguishes the two with `Array.isArray`). -/
inductive VidsVal where
  | one (v : VideoObj)
  | arr (vs : List VideoObj)
deriving DecidableEq

/-- The metadata bag of an item (`item.data.metadata`), restricted to the
fields the source ever reads: `video`, `videos`, and a direct `video_id`
(plus `title`/`channel` for when the metadata object itself is used as a
video descriptor in the extraction chain). -/
structure MetaObj where
  video : Option VideoObj := none
  videos : Option VidsVal := none
  video_id : Option String := none
  title : Option String := none
  channel : Option String := none
deriving DecidableEq

/-- The `data` column of an item row, restricted to the fields the source
reads: display `title`/`content`, the `metadata` bag, and the video payload
fields (`video`, `videos`, direct `video_id`, `channel`). -/
structure DataObj where
  title : Option String := none
  content : Option String := none
  metadata : Option MetaObj := none
  video : Option VideoObj := none
  videos : Option VidsVal := none
  video_id : Option String := none
  channel : Option String := none
deriving DecidableEq

/-- A raw `items` row as delivered by the backend (initial fetch or
change-notification payload), restricted to the columns the adapter reads.
The `type` column is called `typ` because `type` is reserved in Lean. -/
structure RawItem where
  id : String
  paper_id : String := ""
  typ : String
  data : Option DataObj := none
  videos : Option VidsVal := none
  created_at : Option String := none
  updated_at : Option String := none
deriving DecidableEq

/-- A transformed learning item as stored in the adapter state: the raw row
(the object spread keeps `id`, `paper_id`, `typ`, `data`) plus the normalized
`title`, `content`, `metadata`, timestamps, and the repaired `videos` field. -/
structure LearningItem where
  id : String
  paper_id : String
  typ : String
  data : Option DataObj
  title : String
  content : String
  metadata : MetaObj
  created_at : String
  updated_at : String
  videos : Option VidsVal
deriving DecidableEq

/-- The empty metadata bag, the JS literal used as default for
`item.data?.metadata || ` the empty object. -/
def emptyMeta : MetaObj := {}

/-- Normalization applied to every raw row, both at initial load and in the
INSERT/UPDATE handlers (`useSupabaseSubscription.ts`, lines 125-158, 199-214,
249-264): fill `title`/`content` with the empty string, `metadata` with the
empty bag, timestamps with the current clock reading `now`; for rows of type
video, repair the `videos` field from `item.videos || metadata.videos || null`.
Rows of type quiz and flashcard are returned unchanged beyond the base
normalization, exactly as in the source. -/
def transformItem (now : String) (item : RawItem) : LearningItem :=
  let md := (item.data.bind (fun d => d.metadata)).getD emptyMeta
  let baseItem : LearningItem :=
    { id := item.id
      paper_id := item.paper_id
      typ := item.typ
      data := item.data
      title := jsOrStr (item.data.bind (fun d => d.title)) ""
      content := jsOrStr (item.data.bind (fun d => d.content)) ""
      metadata := md
      created_at := jsOrStr item.created_at now
      updated_at := jsOrStr item.updated_at now
      videos := item.videos }
  if item.typ = "video" then
    { baseItem with
        videos := match item.videos with
          | some v => some v
          | none => md.videos }
  else baseItem

/-- The state held by `useLearningItemsSubscription`: the full item list and
the six per-type bucket lists. -/
structure AdapterState where
  learningItems : List LearningItem := []
  videoItems : List LearningItem := []
  quizItems : List LearningItem := []
  flashcardItems : List LearningItem := []
  keyConceptsItems : List LearningItem := []
  methodologyItems : List LearningItem := []
  resultsItems : List LearningItem := []
deriving DecidableEq

/-- Initial load (`useSupabaseSubscription.ts`, lines 114-183): transform every
fetched row, store the full list, and fill each bucket by filtering on the
type tag. -/
def initialLoad (now : String) (data : List RawItem) : AdapterState :=
  let transformedItems := data.map (transformItem now)
  { learningItems := transformedItems
    videoItems := transformedItems.filter (fun item => item.typ == "video")
    quizItems := transformedItems.filter (fun item => item.typ == "quiz")
    flashcardItems := transformedItems.filter (fun item => item.typ == "flashcard")
    keyConceptsItems := transformedItems.filter (fun item => item.typ == "concepts")
    methodologyItems := transformedItems.filter (fun item => item.typ == "methodology")
    resultsItems := transformedItems.filter (fun item => item.typ == "results") }

/-- INSERT handler (lines 190-238): append the transformed row to the full
list and, via the switch on the raw row's type tag, to at most one bucket;
an unrecognized tag falls through the switch and touches no bucket. -/
def applyInsert (now : String) (s : AdapterState) (payloadNew : RawItem) : AdapterState :=
  let newItem := transformItem now payloadNew
  let s1 := { s with learningItems := s.learningItems ++ [newItem] }
  if payloadNew.typ = "video" then
    { s1 with videoItems := s1.videoItems ++ [newItem] }
  else if payloadNew.typ = "quiz" then
    { s1 with quizItems := s1.quizItems ++ [newItem] }
  else if payloadNew.typ = "flashcard" then
    { s1 with flashcardItems := s1.flashcardItems ++ [newItem] }
  else if payloadNew.typ = "concepts" then
    { s1 with keyConceptsItems := s1.keyConceptsItems ++ [newItem] }
  else if payloadNew.typ = "methodology" then
    { s1 with methodologyItems := s1.methodologyItems ++ [newItem] }
  else if payloadNew.typ = "results" then
    { s1 with resultsItems := s1.resultsItems ++ [newItem] }
  else s1

/-- `current.map (item => item.id === x.id ? x : item)` — the replacement used
by the UPDATE handler on the full list and on the matching bucket. -/
def replaceById (x : LearningItem) (l : List LearningItem) : List LearningItem :=
  l.map (fun item => if item.id == x.id then x else item)

/-- UPDATE handler (lines 240-303), factored through the transformed record:
replace by identifier in the full list and, via the switch on the transformed
record's type tag, in at most one bucket. -/
def applyUpdateWith (updatedItem : LearningItem) (s : AdapterState) : AdapterState :=
  let s1 := { s with learningItems := replaceById updatedItem s.learningItems }
  if updatedItem.typ = "video" then
    { s1 with videoItems := replaceById updatedItem s1.videoItems }
  else if updatedItem.typ = "quiz" then
    { s1 with quizItems := replaceById updatedItem s1.quizItems }
  else if updatedItem.typ = "flashcard" then
    { s1 with flashcardItems := replaceById updatedItem s1.flashcardItems }
  else if updatedItem.typ = "concepts" then
    { s1 with keyConceptsItems := replaceById updatedItem s1.keyConceptsItems }
  else if updatedItem.typ = "methodology" then
    { s1 with methodologyItems := replaceById updatedItem s1.methodologyItems }
  else if updatedItem.typ = "results" then
    { s1 with resultsItems := replaceById updatedItem s1.resultsItems }
  else s1

/-- UPDATE handler entry point: transform the payload, then dispatch. -/
def applyUpdate (now : String) (s : AdapterState) (payloadNew : RawItem) : AdapterState :=
  applyUpdateWith (transformItem now payloadNew) s

/-- The DELETE payload's `old` record: the handler reads only `id` and
`type`. -/
structure DeleteOld where
  id : String
  typ : String
deriving DecidableEq

/-- `current.filter (item => item.id !== deletedItem.id)`. -/
def removeById (i : String) (l : List LearningItem) : List LearningItem :=
  l.filter (fun item => item.id != i)

/-- DELETE handler (lines 305-351): remove by identifier from the full list
and, via the switch on the old record's type tag, from at most one bucket. -/
def applyDelete (s : AdapterState) (payloadOld : DeleteOld) : AdapterState :=
  let s1 := { s with learningItems := removeById payloadOld.id s.learningItems }
  if payloadOld.typ = "video" then
    { s1 with videoItems := removeById payloadOld.id s1.videoItems }
  else if payloadOld.typ = "quiz" then
    { s1 with quizItems := removeById payloadOld.id s1.quizItems }
  else if payloadOld.typ = "flashcard" then
    { s1 with flashcardItems := removeById payloadOld.id s1.flashcardItems }
  else if payloadOld.typ = "concepts" then
    { s1 with keyConceptsItems := removeById payloadOld.id s1.keyConceptsItems }
  else if payloadOld.typ = "methodology" then
    { s1 with methodologyItems := removeById payloadOld.id s1.methodologyItems }
  else if payloadOld.typ = "results" then
    { s1 with resultsItems := removeById payloadOld.id s1.resultsItems }
  else s1

/-- A change notification, carrying the clock reading `now` observed when the
notification is processed (the handlers call the clock for timestamp
defaults). -/
inductive ChangeEvent where
  | insert (now : String) (payloadNew : RawItem)
  | update (now : String) (payloadNew : RawItem)
  | delete (payloadOld : DeleteOld)
deriving DecidableEq

/-- Dispatch one change notification. -/
def applyEvent (s : AdapterState) (e : ChangeEvent) : AdapterState :=
  match e with
  | .insert now p => applyInsert now s p
  | .update now p => applyUpdate now s p
  | .delete old => applyDelete s old

/-- Apply a sequence of change notifications in arrival order. -/
def applyEvents (s : AdapterState) (es : List ChangeEvent) : AdapterState :=
  es.foldl applyEvent s

/-- The six recognized type tags. -/
def recognizedTags : List String :=
  ["video", "quiz", "flashcard", "concepts", "methodology", "results"]

/-- The partition property: each of the six buckets holds exactly the items of
the full list carrying the matching type tag, in the full list's order. -/
def bucketsConsistent (s : AdapterState) : Prop :=
  s.videoItems = s.learningItems.filter (fun item => item.typ == "video")
  ∧ s.quizItems = s.learningItems.filter (fun item => item.typ == "quiz")
  ∧ s.flashcardItems = s.learningItems.filter (fun item => item.typ == "flashcard")
  ∧ s.keyConceptsItems = s.learningItems.filter (fun item => item.typ == "concepts")
  ∧ s.methodologyItems = s.learningItems.filter (fun item => item.typ == "methodology")
  ∧ s.resultsItems = s.learningItems.filter (fun item => item.typ == "results")

instance (s : AdapterState) : Decidable (bucketsConsistent s) := by
  unfold bucketsConsistent; infer_instance

/-- A notification is type-stable for a state when it does not change the type
tag of any item it targets: UPDATE and DELETE payloads carry the same tag as
every matching item of the full list. -/
def eventTypeStable (s : AdapterState) (e : ChangeEvent) : Bool :=
  match e with
  | .insert _ _ => true
  | .update _ p => s.learningItems.all (fun item => item.id != p.id || item.typ == p.typ)
  | .delete old => s.learningItems.all (fun item => item.id != old.id || item.typ == old.typ)

/-- Type stability along a whole notification sequence. -/
def traceTypeStable : AdapterState → List ChangeEvent → Bool
  | _, [] => true
  | s, e :: es => eventTypeStable s e && traceTypeStable (applyEvent s e) es

/-! ### Basic lemmas about the transformation and the list operations -/

lemma transformItem_id (now : String) (p : RawItem) :
    (transformItem now p).id = p.id := by
  unfold transformItem
  dsimp only
  split <;> rfl

lemma transformItem_typ (now : String) (p : RawItem) :
    (transformItem now p).typ = p.typ := by
  unfold transformItem
  dsimp only
  split <;> rfl

lemma filter_replaceById_of_ne (x : LearningItem) (t : String) (l : List LearningItem)
    (hx : (x.typ == t) = false)
    (h : ∀ item ∈ l, item.id = x.id → (item.typ == t) = false) :
    (replaceById x l).filter (fun item => item.typ == t)
      = l.filter (fun item => item.typ == t) := by
  unfold replaceById
  rw [List.filter_map]
  have hcongr : ∀ item ∈ l,
      ((fun item => item.typ == t) ∘ fun item => if item.id == x.id then x else item) item
        = (fun item => item.typ == t) item := by
    intro item hm
    cases hid : item.id == x.id with
    | true =>
      simp only [Function.comp_apply, hid, if_true]
      rw [hx, h item hm (beq_iff_eq.mp hid)]
    | false =>
      have hne : item.id ≠ x.id := by simpa using hid
      simp [hne]
  rw [List.filter_congr hcongr]
  have hmap : ∀ item ∈ l.filter (fun item => item.typ == t),
      (fun item => if item.id == x.id then x else item) item = id item := by
    intro item hm
    obtain ⟨hml, hpt⟩ := List.mem_filter.mp hm
    cases hid : item.id == x.id with
    | true =>
      have hfalse := h item hml (beq_iff_eq.mp hid)
      simp [hfalse] at hpt
    | false =>
      simp [hid]
  rw [List.map_congr_left hmap, List.map_id]

lemma filter_replaceById_of_eq (x : LearningItem) (t : String) (l : List LearningItem)
    (hx : (x.typ == t) = true)
    (h : ∀ item ∈ l, item.id = x.id → (item.typ == t) = true) :
    (replaceById x l).filter (fun item => item.typ == t)
      = replaceById x (l.filter (fun item => item.typ == t)) := by
  unfold replaceById
  rw [List.filter_map]
  congr 1
  apply List.filter_congr
  intro item hm
  cases hid : item.id == x.id with
  | true =>
    simp only [Function.comp_apply, hid, if_true]
    rw [hx, h item hm (beq_iff_eq.mp hid)]
  | false =>
    have hne : item.id ≠ x.id := by simpa using hid
    simp [hne]

lemma filter_removeById_comm (i : String) (t : String) (l : List LearningItem) :
    (removeById i l).filter (fun item => item.typ == t)
      = removeById i (l.filter (fun item => item.typ == t)) := by
  simp [removeById, List.filter_filter, Bool.and_comm]

lemma filter_removeById_of_ne (i : String) (t : String) (l : List LearningItem)
    (h : ∀ item ∈ l, item.id = i → (item.typ == t) = false) :
    (removeById i l).filter (fun item => item.typ == t)
      = l.filter (fun item => item.typ == t) := by
  unfold removeById
  rw [List.filter_filter]
  apply List.filter_congr
  intro item hm
  cases hid : item.id == i with
  | true =>
    have hfalse := h item hm (beq_iff_eq.mp hid)
    simp [hfalse, bne, hid]
  | false =>
    simp [bne, hid]

/-! ### How each handler acts on a bucket filter -/

lemma bucketFilter_append (x : LearningItem) (full : List LearningItem) (t : String) :
    (full ++ [x]).filter (fun item => item.typ == t)
      = if x.typ = t then full.filter (fun item => item.typ == t) ++ [x]
        else full.filter (fun item => item.typ == t) := by
  rw [List.filter_append]
  by_cases h : x.typ = t <;> simp [h]

lemma bucketFilter_update (x : LearningItem) (full : List LearningItem) (t : String)
    (hstable : ∀ item ∈ full, item.id = x.id → item.typ = x.typ) :
    (replaceById x full).filter (fun item => item.typ == t)
      = if x.typ = t then replaceById x (full.filter (fun item => item.typ == t))
        else full.filter (fun item => item.typ == t) := by
  by_cases hxt : x.typ = t
  · rw [if_pos hxt]
    refine filter_replaceById_of_eq x t full (by simp [hxt]) ?_
    intro item hm h
    rw [hstable item hm h]
    simp [hxt]
  · rw [if_neg hxt]
    refine filter_replaceById_of_ne x t full (by simp [hxt]) ?_
    intro item hm h
    rw [hstable item hm h]
    simp [hxt]

lemma bucketFilter_remove (i : String) (tOld : String) (full : List LearningItem) (t : String)
    (hstable : ∀ item ∈ full, item.id = i → item.typ = tOld) :
    (removeById i full).filter (fun item => item.typ == t)
      = if tOld = t then removeById i (full.filter (fun item => item.typ == t))
        else full.filter (fun item => item.typ == t) := by
  by_cases hxt : tOld = t
  · rw [if_pos hxt]
    exact filter_removeById_comm i t full
  · rw [if_neg hxt]
    refine filter_removeById_of_ne i t full ?_
    intro item hm h
    rw [hstable item hm h]
    simp [hxt]

/-! ### Preservation of the partition by each handler -/

lemma bucketsConsistent_applyInsert (now : String) (s : AdapterState) (p : RawItem)
    (hs : bucketsConsistent s) :
    bucketsConsistent (applyInsert now s p) := by
  obtain ⟨h1, h2, h3, h4, h5, h6⟩ := hs
  have htyp := transformItem_typ now p
  unfold applyInsert bucketsConsistent
  dsimp only
  split_ifs with e1 e2 e3 e4 e5 e6 <;>
    refine ⟨?_, ?_, ?_, ?_, ?_, ?_⟩ <;>
    rw [bucketFilter_append (transformItem now p) s.learningItems _, htyp] <;>
    simp [*]

lemma bucketsConsistent_applyUpdate (now : String) (s : AdapterState) (p : RawItem)
    (hs : bucketsConsistent s)
    (he : s.learningItems.all (fun item => item.id != p.id || item.typ == p.typ) = true) :
    bucketsConsistent (applyUpdate now s p) := by
  obtain ⟨h1, h2, h3, h4, h5, h6⟩ := hs
  have htyp := transformItem_typ now p
  have hid := transformItem_id now p
  have hstable : ∀ item ∈ s.learningItems,
      item.id = (transformItem now p).id → item.typ = (transformItem now p).typ := by
    intro item hm hix
    have hall := List.all_eq_true.mp he item hm
    simp only [Bool.or_eq_true, bne_iff_ne, beq_iff_eq] at hall
    rw [hid] at hix
    rw [htyp]
    rcases hall with hne | heq
    · exact absurd hix hne
    · exact heq
  unfold applyUpdate applyUpdateWith bucketsConsistent
  dsimp only
  simp only [htyp]
  split_ifs with e1 e2 e3 e4 e5 e6 <;>
    refine ⟨?_, ?_, ?_, ?_, ?_, ?_⟩ <;>
    rw [bucketFilter_update (transformItem now p) s.learningItems _ hstable, htyp] <;>
    simp [*]

lemma bucketsConsistent_applyDelete (s : AdapterState) (old : DeleteOld)
    (hs : bucketsConsistent s)
    (he : s.learningItems.all (fun item => item.id != old.id || item.typ == old.typ) = true) :
    bucketsConsistent (applyDelete s old) := by
  obtain ⟨h1, h2, h3, h4, h5, h6⟩ := hs
  have hstable : ∀ item ∈ s.learningItems, item.id = old.id → item.typ = old.typ := by
    intro item hm hix
    have hall := List.all_eq_true.mp he item hm
    simp only [Bool.or_eq_true, bne_iff_ne, beq_iff_eq] at hall
    rcases hall with hne | heq
    · exact absurd hix hne
    · exact heq
  unfold applyDelete bucketsConsistent
  dsimp only
  split_ifs with e1 e2 e3 e4 e5 e6 <;>
    refine ⟨?_, ?_, ?_, ?_, ?_, ?_⟩ <;>
    rw [bucketFilter_remove old.id old.typ s.learningItems _ hstable] <;>
    simp [*]

lemma bucketsConsistent_applyEvent (s : AdapterState) (e : ChangeEvent)
    (hs : bucketsConsistent s) (he : eventTypeStable s e = true) :
    bucketsConsistent (applyEvent s e) := by
  cases e with
  | insert now p => exact bucketsConsistent_applyInsert now s p hs
  | update now p => exact bucketsConsistent_applyUpdate now s p hs he
  | delete old => exact bucketsConsistent_applyDelete s old hs he

lemma bucketsConsistent_applyEvents (s : AdapterState) (es : List ChangeEvent)
    (hs : bucketsConsistent s) (he : traceTypeStable s es = true) :
    bucketsConsistent (applyEvents s es) := by
  induction es generalizing s with
  | nil => exact hs
  | cons e es ih =>
    rw [traceTypeStable] at he
    simp only [Bool.and_eq_true] at he
    obtain ⟨he1, he2⟩ := he
    exact ih (applyEvent s e) (bucketsConsistent_applyEvent s e hs he1) he2

lemma bucketsConsistent_initialLoad (now : String) (data : List RawItem) :
    bucketsConsistent (initialLoad now data) :=
  ⟨rfl, rfl, rfl, rfl, rfl, rfl⟩

/-! ### Occurrence counting by identifier -/

/-- Number of items of a list carrying a given identifier. -/
def countId (l : List LearningItem) (i : String) : Nat :=
  (l.filter (fun item => item.id == i)).length

/-- The identifier occurs in none of the six buckets. -/
def noIdInBuckets (s : AdapterState) (i : String) : Prop :=
  countId s.videoItems i = 0 ∧ countId s.quizItems i = 0
  ∧ countId s.flashcardItems i = 0 ∧ countId s.keyConceptsItems i = 0
  ∧ countId s.methodologyItems i = 0 ∧ countId s.resultsItems i = 0

instance (s : AdapterState) (i : String) : Decidable (noIdInBuckets s i) := by
  unfold noIdInBuckets; infer_instance

lemma countId_append (l1 l2 : List LearningItem) (i : String) :
    countId (l1 ++ l2) i = countId l1 i + countId l2 i := by
  simp [countId, List.filter_append]

lemma countId_map_transform (now : String) (l : List RawItem) (i : String) :
    countId (l.map (transformItem now)) i = (l.filter (fun r => r.id == i)).length := by
  unfold countId
  rw [List.filter_map, List.length_map]
  congr 1
  apply List.filter_congr
  intro r _
  simp [Function.comp, transformItem_id]

lemma countId_filter_eq_zero (l : List LearningItem) (t : String) (i : String)
    (h : ∀ item ∈ l, item.id = i → (item.typ == t) = false) :
    countId (l.filter (fun item => item.typ == t)) i = 0 := by
  unfold countId
  rw [List.filter_filter, List.length_eq_zero, List.filter_eq_nil_iff]
  intro item hm
  simp only [Bool.and_eq_true, beq_iff_eq, not_and]
  intro hi ht
  have := h item hm hi
  rw [ht] at this
  simp at this

lemma noIdInBuckets_initialLoad (now : String) (data : List RawItem) (i : String)
    (h : ∀ r ∈ data, r.id = i → r.typ ∉ recognizedTags) :
    noIdInBuckets (initialLoad now data) i := by
  have key : ∀ t : String, t ∈ recognizedTags →
      countId ((data.map (transformItem now)).filter (fun item => item.typ == t)) i = 0 := by
    intro t ht
    apply countId_filter_eq_zero
    intro item hm hik
    obtain ⟨r, hr, hrt⟩ := List.mem_map.mp hm
    have hid2 : r.id = i := by rw [← transformItem_id now r, hrt]; exact hik
    have hnot := h r hr hid2
    have htypr : item.typ = r.typ := by rw [← hrt, transformItem_typ]
    rw [htypr, beq_eq_false_iff_ne]
    intro hcontra
    exact hnot (hcontra ▸ ht)
  exact ⟨key "video" (by simp [recognizedTags]), key "quiz" (by simp [recognizedTags]),
    key "flashcard" (by simp [recognizedTags]), key "concepts" (by simp [recognizedTags]),
    key "methodology" (by simp [recognizedTags]), key "results" (by simp [recognizedTags])⟩

/-- An INSERT payload with an unrecognized type tag falls through the switch:
all six buckets are left untouched. -/
lemma applyInsert_buckets_unchanged (now : String) (s : AdapterState) (raw : RawItem)
    (hTyp : raw.typ ∉ recognizedTags) :
    (applyInsert now s raw).videoItems = s.videoItems
    ∧ (applyInsert now s raw).quizItems = s.quizItems
    ∧ (applyInsert now s raw).flashcardItems = s.flashcardItems
    ∧ (applyInsert now s raw).keyConceptsItems = s.keyConceptsItems
    ∧ (applyInsert now s raw).methodologyItems = s.methodologyItems
    ∧ (applyInsert now s raw).resultsItems = s.resultsItems := by
  simp only [recognizedTags, List.mem_cons, List.not_mem_nil, or_false, not_or] at hTyp
  obtain ⟨n1, n2, n3, n4, n5, n6⟩ := hTyp
  unfold applyInsert
  dsimp only
  rw [if_neg n1, if_neg n2, if_neg n3, if_neg n4, if_neg n5, if_neg n6]
  exact ⟨rfl, rfl, rfl, rfl, rfl, rfl⟩

/-! ### Claim C1 — the six buckets partition the typed portion of the full list -/

/-- A quiz item as loaded initially, used to exhibit the type-changing UPDATE. -/
def c1Raw : RawItem :=
  { id := "i1", typ := "quiz", created_at := some "c", updated_at := some "u" }

/-- State after loading the quiz item and then receiving an UPDATE notification
that changes its type tag to video. -/
def c1Bad : AdapterState :=
  applyEvents (initialLoad "t0" [c1Raw]) [ChangeEvent.update "t1" { c1Raw with typ := "video" }]

/-- C1 counterexample: after an UPDATE notification that changes an item's
type tag (quiz to video), the full list holds exactly one item, now tagged
video, yet the video bucket is empty and the quiz bucket still holds one
(stale) record — the buckets are no longer a partition of the typed portion
of the full list, refuting the claim for arbitrary notification sequences. -/
theorem C1_counterexample :
    c1Bad.learningItems.map (fun item => item.typ) = ["video"]
    ∧ c1Bad.videoItems = []
    ∧ c1Bad.quizItems.length = 1
    ∧ ¬ bucketsConsistent c1Bad := by decide

/-- C1 (amended): for every sequence of INSERT/UPDATE/DELETE notifications
applied after the initial load in which no UPDATE or DELETE notification
changes the type tag of the items it targets, each of the six buckets equals
the sublist of the full item list carrying the matching type tag — so every
recognized-type item of the full list appears in exactly the bucket matching
its tag, no bucket contains an item absent from the full list, and no
recognized-type item is missing from its bucket. -/
theorem C1_partition_of_type_stable (now : String) (data : List RawItem)
    (es : List ChangeEvent)
    (h : traceTypeStable (initialLoad now data) es = true) :
    bucketsConsistent (applyEvents (initialLoad now data) es) :=
  bucketsConsistent_applyEvents (initialLoad now data) es
    (bucketsConsistent_initialLoad now data) h

/-- Initial rows for the C1 witness run. -/
def c1wData : List RawItem :=
  [ { id := "a", typ := "quiz", created_at := some "c", updated_at := some "u" },
    { id := "b", typ := "video", created_at := some "c", updated_at := some "u" } ]

/-- A type-stable run exercising all three notification kinds, including an
insert with an unrecognized tag. -/
def c1wEvents : List ChangeEvent :=
  [ ChangeEvent.insert "t1" { id := "d", typ := "mystery" },
    ChangeEvent.update "t2" { id := "a", typ := "quiz", data := some { content := some "new" } },
    ChangeEvent.delete { id := "b", typ := "video" } ]

/-- Witness for the amended C1 at a concrete type-stable run. -/
theorem C1_partition_witness :
    traceTypeStable (initialLoad "t0" c1wData) c1wEvents = true
    ∧ bucketsConsistent (applyEvents (initialLoad "t0" c1wData) c1wEvents) :=
  ⟨by decide, C1_partition_of_type_stable "t0" c1wData c1wEvents (by decide)⟩

/-! ### Claim C2 — unrecognized type tags stay in the full list, out of all buckets -/

/-- C2: an item whose type tag is none of the six recognized tags appears
exactly once in the full item list after the initial load (given that no other
row shares its identifier), and in zero of the six buckets; likewise after an
INSERT notification for it applied to a state not already holding its
identifier.  The embedded handlers are total functions, matching the source,
whose switch on the type tag simply falls through for an unrecognized tag —
processing such an item raises no error. -/
theorem C2_unknown_type_kept (now : String) (raw : RawItem)
    (hTyp : raw.typ ∉ recognizedTags)
    (pre post : List RawItem)
    (hData : ∀ r ∈ pre ++ post, r.id ≠ raw.id)
    (s : AdapterState)
    (hNoId : countId s.learningItems raw.id = 0)
    (hNoBucket : noIdInBuckets s raw.id) :
    (countId (initialLoad now (pre ++ raw :: post)).learningItems raw.id = 1
      ∧ noIdInBuckets (initialLoad now (pre ++ raw :: post)) raw.id)
    ∧ (countId (applyInsert now s raw).learningItems raw.id = 1
      ∧ noIdInBuckets (applyInsert now s raw) raw.id) := by
  have hpre : ∀ r ∈ pre, r.id ≠ raw.id := fun r hr =>
    hData r (List.mem_append.mpr (Or.inl hr))
  have hpost : ∀ r ∈ post, r.id ≠ raw.id := fun r hr =>
    hData r (List.mem_append.mpr (Or.inr hr))
  refine ⟨⟨?_, ?_⟩, ?_, ?_⟩
  · show countId ((pre ++ raw :: post).map (transformItem now)) raw.id = 1
    rw [countId_map_transform]
    rw [List.filter_append, List.filter_cons]
    have hnilpre : pre.filter (fun r => r.id == raw.id) = [] :=
      List.filter_eq_nil_iff.mpr (fun r hr => by simp [hpre r hr])
    have hnilpost : post.filter (fun r => r.id == raw.id) = [] :=
      List.filter_eq_nil_iff.mpr (fun r hr => by simp [hpost r hr])
    simp [hnilpre, hnilpost]
  · apply noIdInBuckets_initialLoad
    intro r hr hid
    rcases List.mem_append.mp hr with hl | hm
    · exact absurd hid (hpre r hl)
    · rcases List.mem_cons.mp hm with hq | hl
      · rw [hq]; exact hTyp
      · exact absurd hid (hpost r hl)
  · have hfull : (applyInsert now s raw).learningItems
        = s.learningItems ++ [transformItem now raw] := by
      simp only [recognizedTags, List.mem_cons, List.not_mem_nil, or_false, not_or] at hTyp
      obtain ⟨n1, n2, n3, n4, n5, n6⟩ := hTyp
      unfold applyInsert
      dsimp only
      rw [if_neg n1, if_neg n2, if_neg n3, if_neg n4, if_neg n5, if_neg n6]
    rw [hfull, countId_append, hNoId]
    simp [countId, transformItem_id]
  · obtain ⟨b1, b2, b3, b4, b5, b6⟩ := applyInsert_buckets_unchanged now s raw hTyp
    obtain ⟨k1, k2, k3, k4, k5, k6⟩ := hNoBucket
    exact ⟨b1 ▸ k1, b2 ▸ k2, b3 ▸ k3, b4 ▸ k4, b5 ▸ k5, b6 ▸ k6⟩

/-- A concrete row with the unrecognized tag summary, inserted into the empty
state and loaded on its own. -/
def c2Raw : RawItem := { id := "z", typ := "summary" }

/-- Witness for C2 at a concrete unrecognized-tag row. -/
theorem C2_unknown_type_witness :
    countId (applyInsert "t0" {} c2Raw).learningItems "z" = 1
    ∧ noIdInBuckets (applyInsert "t0" {} c2Raw) "z" :=
  (C2_unknown_type_kept "t0" c2Raw (by decide) [] [] (by simp) {} (by decide)
    (by decide)).2

/-! ### Claim C3 — the quiz/video UPDATE scenario -/

/-- Initial quiz row i1 of paper P1. -/
def c3Raw1 : RawItem :=
  { id := "i1", paper_id := "P1", typ := "quiz",
    data := some { content := some "old" },
    created_at := some "c1", updated_at := some "u1" }

/-- Initial video row i2 of paper P1. -/
def c3Raw2 : RawItem :=
  { id := "i2", paper_id := "P1", typ := "video",
    created_at := some "c2", updated_at := some "u2" }

/-- The UPDATE payload for i1 with changed content. -/
def c3Upd : RawItem :=
  { c3Raw1 with data := some { content := some "new" }, updated_at := some "u3" }

/-- State after the initial load of [i1, i2]. -/
def c3Before : AdapterState := initialLoad "t0" [c3Raw1, c3Raw2]

/-- State after the UPDATE notification for i1. -/
def c3After : AdapterState := applyUpdate "t1" c3Before c3Upd

/-- C3: in the state loaded from items i1 (quiz) and i2 (video), where
quizItems = [i1] and videoItems = [i2], an UPDATE notification for i1 that
changes its content replaces the record with identifier i1 in quizItems and
in the full list by the transformed updated record, and leaves i2 unchanged
in both the full list and videoItems. -/
theorem C3_update_replaces_quiz_item :
    c3Before.quizItems = [transformItem "t0" c3Raw1]
    ∧ c3Before.videoItems = [transformItem "t0" c3Raw2]
    ∧ (transformItem "t0" c3Raw1).content = "old"
    ∧ (transformItem "t1" c3Upd).content = "new"
    ∧ c3After.learningItems = [transformItem "t1" c3Upd, transformItem "t0" c3Raw2]
    ∧ c3After.quizItems = [transformItem "t1" c3Upd]
    ∧ c3After.videoItems = [transformItem "t0" c3Raw2] := by
  decide

/-! ### Claim C4 — idempotence of applying an UPDATE notification twice -/

lemma replaceById_idem (x : LearningItem) (l : List LearningItem) :
    replaceById x (replaceById x l) = replaceById x l := by
  unfold replaceById
  rw [List.map_map]
  apply List.map_congr_left
  intro a _
  simp only [Function.comp_apply]
  cases hid : a.id == x.id with
  | true => simp [beq_self_eq_true]
  | false =>
    have hne : a.id ≠ x.id := by simpa using hid
    simp [hne]

lemma applyUpdateWith_idem (x : LearningItem) (s : AdapterState) :
    applyUpdateWith x (applyUpdateWith x s) = applyUpdateWith x s := by
  unfold applyUpdateWith
  dsimp only
  split_ifs <;> simp [replaceById_idem]

/-- The transformation does not depend on the clock reading when the payload
carries truthy creation and update timestamps. -/
lemma transformItem_clock_indep (p : RawItem) (t1 t2 : String)
    (hc : strTruthy p.created_at = true) (hu : strTruthy p.updated_at = true) :
    transformItem t2 p = transformItem t1 p := by
  have hcr : jsOrStr p.created_at t2 = jsOrStr p.created_at t1 := by
    rcases hco : p.created_at with _ | s
    · rw [hco] at hc; simp [strTruthy] at hc
    · rw [hco] at hc
      have hs : s ≠ "" := by simpa [strTruthy] using hc
      simp [jsOrStr, hs]
  have hup : jsOrStr p.updated_at t2 = jsOrStr p.updated_at t1 := by
    rcases huo : p.updated_at with _ | s
    · rw [huo] at hu; simp [strTruthy] at hu
    · rw [huo] at hu
      have hs : s ≠ "" := by simpa [strTruthy] using hu
      simp [jsOrStr, hs]
  unfold transformItem
  dsimp only
  rw [hcr, hup]

/-- A payload lacking its creation timestamp, for the counterexample run. -/
def c4Raw : RawItem := { id := "i1", typ := "quiz" }

/-- State after loading the timestamp-less quiz row. -/
def c4State : AdapterState := initialLoad "t0" [c4Raw]

/-- C4 counterexample: for an UPDATE payload carrying no timestamps, the
normalization stamps the clock reading taken when the notification is
processed, so applying the same notification twice (at clock readings t1 and
then t2) differs from applying it once: the second application overwrites the
defaulted timestamps with the later reading. -/
theorem C4_counterexample :
    applyUpdate "t2" (applyUpdate "t1" c4State c4Raw) c4Raw
      ≠ applyUpdate "t1" c4State c4Raw := by
  decide

/-- C4 (amended): applying the same UPDATE notification twice yields the same
full list and the same six per-type lists as applying it once, provided the
payload carries truthy created/updated timestamps (so the normalization's
timestamp defaulting is not exercised); without them the two applications
stamp their own clock readings and the states differ, as the counterexample
shows. -/
theorem C4_update_idempotent (s : AdapterState) (p : RawItem) (t1 t2 : String)
    (hc : strTruthy p.created_at = true) (hu : strTruthy p.updated_at = true) :
    applyUpdate t2 (applyUpdate t1 s p) p = applyUpdate t1 s p := by
  unfold applyUpdate
  rw [transformItem_clock_indep p t1 t2 hc hu]
  exact applyUpdateWith_idem (transformItem t1 p) s

/-- A fully timestamped UPDATE payload for the witness run. -/
def c4wRaw : RawItem :=
  { id := "i1", typ := "quiz", data := some { content := some "new" },
    created_at := some "c", updated_at := some "u" }

/-- Witness for the amended C4 at a concrete timestamped payload. -/
theorem C4_update_idempotent_witness :
    applyUpdate "t2" (applyUpdate "t1" c4State c4wRaw) c4wRaw
      = applyUpdate "t1" c4State c4wRaw :=
  C4_update_idempotent c4State c4wRaw "t1" "t2" (by decide) (by decide)

/-! ### The paper snapshot hook (`usePaperSubscription`) -/

/-- A raw `papers` row, restricted to the columns the hook reads for URL
resolution plus representative display fields carried along by the object
spread. -/
structure RawPaper where
  id : String
  title : String := ""
  status : String := ""
  pdf_url : Option String := none
  source_type : Option String := none
  arxiv_id : Option String := none
  source_url : Option String := none
deriving DecidableEq

/-- The paper snapshot exposed to consumers (`PaperResponse`): the raw row's
fields with `pdf_url` replaced by the resolved document URL. -/
structure PaperResponseState where
  id : String
  title : String
  status : String
  pdf_url : Option String
  source_type : Option String
  arxiv_id : Option String
  source_url : Option String
deriving DecidableEq

/-- The object spread of a raw row into the snapshot shape, with the given
document URL (`...data, pdf_url: pdfUrl`). -/
def paperResponseOf (data : RawPaper) (url : Option String) : PaperResponseState :=
  { id := data.id, title := data.title, status := data.status,
    pdf_url := url, source_type := data.source_type,
    arxiv_id := data.arxiv_id, source_url := data.source_url }

/-- Document URL resolution of the initial fetch (`useSupabaseSubscription.ts`,
lines 36-44): keep a truthy stored `pdf_url`; otherwise derive the canonical
arXiv PDF URL from a truthy `arxiv_id` when `source_type` is arxiv; otherwise
fall back to `source_url` when `source_type` is pdf; otherwise the (falsy)
stored value remains. -/
def resolvePdfUrl (data : RawPaper) : Option String :=
  if strTruthy data.pdf_url then data.pdf_url
  else if data.source_type == some "arxiv" && strTruthy data.arxiv_id then
    some ("https://arxiv.org/pdf/" ++ data.arxiv_id.getD "")
  else if data.source_type == some "pdf" then data.source_url
  else data.pdf_url

/-- The hook's state: the exposed snapshot (null before the fetch completes)
and the stored initial PDF URL. -/
structure PaperHookState where
  paper : Option PaperResponseState := none
  initialPdfUrl : Option String := none
deriving DecidableEq

/-- Completion of the initial fetch (lines 25-59): resolve the URL, store it
as the initial PDF URL, and expose the transformed snapshot. -/
def applyPaperFetch (st : PaperHookState) (data : RawPaper) : PaperHookState :=
  let pdfUrl := resolvePdfUrl data
  { st with initialPdfUrl := pdfUrl, paper := some (paperResponseOf data pdfUrl) }

/-- UPDATE notification handler (lines 64-86): when a snapshot is present,
adopt the notification's field values wholesale but set
`pdf_url := initialPdfUrl || currentPaper.pdf_url`; when no snapshot is
present yet, the updater returns null. -/
def applyPaperUpdate (st : PaperHookState) (payloadNew : RawPaper) : PaperHookState :=
  match st.paper with
  | none => { st with paper := none }
  | some currentPaper =>
    { st with paper := some (paperResponseOf payloadNew
        (jsOrOpt st.initialPdfUrl currentPaper.pdf_url)) }

/-! ### Claim C5 — document URL fallback precedence -/

/-- The concrete arXiv example of the specification scenario. -/
def c5Arxiv : RawPaper :=
  { id := "p", source_type := some "arxiv", arxiv_id := some "1234" }

/-- C5: the resolved document URL follows the fallback precedence — a truthy
stored `pdf_url` wins; otherwise a recognized arXiv source yields the
canonical arXiv PDF URL derived from the identifier; otherwise a pdf source
yields the stored source URL; otherwise, with no stored URL and no recognized
source, the result is null.  The concrete scenario resolves the record with
no `pdf_url`, source type arxiv and identifier 1234 to the canonical arXiv
PDF URL. -/
theorem C5_resolve_precedence (data : RawPaper) :
    (strTruthy data.pdf_url = true → resolvePdfUrl data = data.pdf_url)
    ∧ (strTruthy data.pdf_url = false →
        (data.source_type == some "arxiv" && strTruthy data.arxiv_id) = true →
        resolvePdfUrl data = some ("https://arxiv.org/pdf/" ++ data.arxiv_id.getD ""))
    ∧ (strTruthy data.pdf_url = false →
        (data.source_type == some "arxiv" && strTruthy data.arxiv_id) = false →
        data.source_type = some "pdf" →
        resolvePdfUrl data = data.source_url)
    ∧ (data.pdf_url = none →
        (data.source_type == some "arxiv" && strTruthy data.arxiv_id) = false →
        data.source_type ≠ some "pdf" →
        resolvePdfUrl data = none)
    ∧ resolvePdfUrl c5Arxiv = some "https://arxiv.org/pdf/1234" := by
  refine ⟨?_, ?_, ?_, ?_, by decide⟩
  · intro h
    unfold resolvePdfUrl
    rw [if_pos h]
  · intro h1 h2
    unfold resolvePdfUrl
    rw [if_neg (by simp [h1]), if_pos h2]
  · intro h1 h2 h3
    unfold resolvePdfUrl
    rw [if_neg (by simp [h1]), if_neg (by simp [h2]), if_pos (by simp [h3])]
  · intro h1 h2 h3
    unfold resolvePdfUrl
    rw [if_neg (by simp [h1, strTruthy]), if_neg (by simp [h2]),
      if_neg (by simp [h3]), h1]

/-- Witness for C5: the arXiv scenario discharged through the precedence
theorem's second clause. -/
theorem C5_resolve_witness : resolvePdfUrl c5Arxiv = some "https://arxiv.org/pdf/1234" :=
  (C5_resolve_precedence c5Arxiv).2.1 (by decide) (by decide)

/-! ### Claims C6 and C10 — the resolved document URL is frozen after the fetch -/

lemma jsOrOpt_self (v : Option String) : jsOrOpt v v = v := by
  unfold jsOrOpt
  split <;> rfl

/-- One UPDATE notification keeps both the stored initial URL and the
snapshot's document URL, while adopting the payload's other fields. -/
lemma paperUpdate_keeps_url (v : Option String) (st : PaperHookState) (q : RawPaper)
    (h1 : st.initialPdfUrl = v) (pp : PaperResponseState)
    (hpp : st.paper = some pp) (hurl : pp.pdf_url = v) :
    (applyPaperUpdate st q).initialPdfUrl = v
    ∧ (applyPaperUpdate st q).paper = some (paperResponseOf q v) := by
  unfold applyPaperUpdate
  simp only [hpp]
  refine ⟨h1, ?_⟩
  rw [h1, hurl, jsOrOpt_self]

/-- The URL invariant survives any number of UPDATE notifications. -/
lemma paperFold_invariant (v : Option String) (qs : List RawPaper) :
    ∀ (st : PaperHookState) (pp : PaperResponseState),
      st.initialPdfUrl = v → st.paper = some pp → pp.pdf_url = v →
      (qs.foldl applyPaperUpdate st).initialPdfUrl = v
      ∧ ∃ pp2, (qs.foldl applyPaperUpdate st).paper = some pp2 ∧ pp2.pdf_url = v := by
  induction qs with
  | nil => exact fun st pp h1 hpp hurl => ⟨h1, pp, hpp, hurl⟩
  | cons q qs ih =>
    intro st pp h1 hpp hurl
    obtain ⟨hi, hp⟩ := paperUpdate_keeps_url v st q h1 pp hpp hurl
    exact ih (applyPaperUpdate st q) (paperResponseOf q v) hi hp rfl

/-- C6: once the initial fetch has resolved the document URL to a non-null
value, every later UPDATE notification produces a snapshot that adopts the
notification's field values but keeps the resolved URL — even when the
notification carries a different `pdf_url` — after arbitrarily many earlier
notifications. -/
theorem C6_url_preserved_after_updates (data : RawPaper) (u : String)
    (h : resolvePdfUrl data = some u) (qs : List RawPaper) (q : RawPaper) :
    (applyPaperUpdate (qs.foldl applyPaperUpdate (applyPaperFetch {} data)) q).paper
      = some (paperResponseOf q (some u)) := by
  have hst : (applyPaperFetch {} data).initialPdfUrl = some u := by
    unfold applyPaperFetch
    dsimp only
    rw [h]
  have hpp : (applyPaperFetch {} data).paper = some (paperResponseOf data (some u)) := by
    unfold applyPaperFetch
    dsimp only
    rw [h]
  obtain ⟨hi2, pp2, hp2, hurl2⟩ := paperFold_invariant (some u) qs (applyPaperFetch {} data)
    (paperResponseOf data (some u)) hst hpp rfl
  exact (paperUpdate_keeps_url (some u) _ q hi2 pp2 hp2 hurl2).2

/-- Notification payload carrying a different backend URL. -/
def c6Upd : RawPaper :=
  { id := "p", title := "Updated Title", pdf_url := some "https://backend/other.pdf",
    source_type := some "arxiv", arxiv_id := some "1234" }

/-- Witness for C6: the arXiv-resolved URL survives an UPDATE carrying a
different `pdf_url`, while the title is adopted. -/
theorem C6_url_preserved_witness :
    (applyPaperUpdate (applyPaperFetch {} c5Arxiv) c6Upd).paper
      = some (paperResponseOf c6Upd (some "https://arxiv.org/pdf/1234")) :=
  C6_url_preserved_after_updates c5Arxiv "https://arxiv.org/pdf/1234" (by decide) [] c6Upd

/-- C10: when the initial fetch resolves no document URL (no stored URL and no
recognized source), the snapshot's document URL stays null across all later
UPDATE notifications — a newly available backend `pdf_url` is never adopted. -/
theorem C10_null_url_never_replaced (data : RawPaper)
    (h : resolvePdfUrl data = none) (qs : List RawPaper) (q : RawPaper) :
    (applyPaperUpdate (qs.foldl applyPaperUpdate (applyPaperFetch {} data)) q).paper
      = some (paperResponseOf q none) := by
  have hst : (applyPaperFetch {} data).initialPdfUrl = none := by
    unfold applyPaperFetch
    dsimp only
    rw [h]
  have hpp : (applyPaperFetch {} data).paper = some (paperResponseOf data none) := by
    unfold applyPaperFetch
    dsimp only
    rw [h]
  obtain ⟨hi2, pp2, hp2, hurl2⟩ := paperFold_invariant none qs (applyPaperFetch {} data)
    (paperResponseOf data none) hst hpp rfl
  exact (paperUpdate_keeps_url none _ q hi2 pp2 hp2 hurl2).2

/-- A paper with no stored URL and no recognized source. -/
def c10Paper : RawPaper := { id := "p", title := "Unprocessed" }

/-- Notification that later supplies a backend URL. -/
def c10Upd : RawPaper :=
  { id := "p", title := "Processed", pdf_url := some "https://backend/now-ready.pdf" }

/-- Witness for C10: the late backend URL is not adopted; the snapshot's
document URL stays null. -/
theorem C10_null_url_witness :
    (applyPaperUpdate (applyPaperFetch {} c10Paper) c10Upd).paper
      = some (paperResponseOf c10Upd none) :=
  C10_null_url_never_replaced c10Paper (by decide) [] c10Upd

/-! ### Claim C9 — late responses for a stale identifier -/

/-- The hook's state together with the currently tracked paper identifier.
When the identifier changes, the effect re-runs (tearing down only the
notification channel); the `paper`/`initialPdfUrl` state is not reset, and the
route keeps the consuming component mounted, so the state persists across
identifier changes. -/
structure PaperSyncState where
  activeId : String
  st : PaperHookState := {}
deriving DecidableEq

/-- Events of the identifier-tracking machine: changing the tracked
identifier, completion of an initial fetch that was issued while `capturedId`
was active, and an UPDATE notification. -/
inductive PaperSyncEvent where
  | changeId (newId : String)
  | fetchArrives (capturedId : String) (data : RawPaper)
  | updateArrives (payloadNew : RawPaper)
deriving DecidableEq

/-- Dispatch of the machine's events.  The fetch-completion handler of the
source (`useSupabaseSubscription.ts`, lines 25-59) applies its result
unconditionally: it never compares the identifier captured at request time
against the currently active one, so `capturedId` is ignored here exactly as
in the source. -/
def applyPaperSyncEvent (m : PaperSyncState) (e : PaperSyncEvent) : PaperSyncState :=
  match e with
  | .changeId newId => { m with activeId := newId }
  | .fetchArrives _capturedId data => { m with st := applyPaperFetch m.st data }
  | .updateArrives q => { m with st := applyPaperUpdate m.st q }

/-- Run of the machine from an initial tracked identifier. -/
def runPaperSync (initialId : String) (es : List PaperSyncEvent) : PaperSyncState :=
  es.foldl applyPaperSyncEvent { activeId := initialId }

/-- Paper A, whose fetch response arrives late. -/
def c9PaperA : RawPaper :=
  { id := "A", title := "Paper A", pdf_url := some "https://backend/a.pdf" }

/-- Paper B, the currently tracked paper. -/
def c9PaperB : RawPaper :=
  { id := "B", title := "Paper B", pdf_url := some "https://backend/b.pdf" }

/-- The failing run: while paper A's fetch is in flight the tracked identifier
changes to B, B's fetch completes, and then A's late response arrives. -/
def c9Trace : List PaperSyncEvent :=
  [ PaperSyncEvent.changeId "B",
    PaperSyncEvent.fetchArrives "B" c9PaperB,
    PaperSyncEvent.fetchArrives "A" c9PaperA ]

/-- C9 evaluation: the claim (and the specification) require a late response
for a stale identifier to be discarded by comparing the identifier captured at
request time against the active one; the source performs no such comparison,
so the late response for paper A overwrites the snapshot belonging to the
currently tracked paper B — the final snapshot's identifier differs from the
active identifier. -/
theorem C9_stale_fetch_overwrites :
    (runPaperSync "A" c9Trace).activeId = "B"
    ∧ (runPaperSync "A" c9Trace).st.paper
        = some (paperResponseOf c9PaperA (some "https://backend/a.pdf"))
    ∧ ((runPaperSync "A" c9Trace).st.paper.map (fun pp => pp.id)
        ≠ some (runPaperSync "A" c9Trace).activeId) := by
  decide

/-! ### Claim C7 — video payload extraction (`VideoExplanationStep.tsx`, lines 31-74) -/

/-- An extracted video descriptor: the spread of the matched video object
(restricted to the three fields the player reads) tagged with the owning
item's identifier. -/
structure VideoDesc where
  video_id : Option String := none
  title : Option String := none
  channel : Option String := none
  itemId : String
deriving DecidableEq

/-- Spread of a video object into a descriptor tagged with the item id. -/
def descOfVideoObj (itemId : String) (v : VideoObj) : VideoDesc :=
  { video_id := v.video_id, title := v.title, channel := v.channel, itemId := itemId }

/-- Spread of the `data` object itself into a descriptor (the chain's
`video_id` in `data` case uses the data object as the video). -/
def descOfDataObj (itemId : String) (d : DataObj) : VideoDesc :=
  { video_id := d.video_id, title := d.title, channel := d.channel, itemId := itemId }

/-- Spread of the metadata object itself into a descriptor. -/
def descOfMetaObj (itemId : String) (m : MetaObj) : VideoDesc :=
  { video_id := m.video_id, title := m.title, channel := m.channel, itemId := itemId }

/-- The extraction chain exactly as in the source: seven if/else branches
probing, in order, `metadata.video`, `data.video`, `metadata.videos` (only
when it is an array), `item.videos` (array or single), `data.videos`,
`data.video_id`, `metadata.video_id`.  The `data.videos` branch iterates the
value without an `Array.isArray` check, so a single object there raises a
TypeError at `videos.forEach` — embedded as the `none` result. -/
def extractItemVideos (item : LearningItem) : Option (List VideoDesc) :=
  match item.metadata.video with
  | some v => some [descOfVideoObj item.id v]
  | none =>
    match item.data.bind (fun d => d.video) with
    | some v => some [descOfVideoObj item.id v]
    | none =>
      match item.metadata.videos with
      | some (.arr vs) => some (vs.map (descOfVideoObj item.id))
      | _ =>
        match item.videos with
        | some (.arr vs) => some (vs.map (descOfVideoObj item.id))
        | some (.one v) => some [descOfVideoObj item.id v]
        | none =>
          match item.data.bind (fun d => d.videos) with
          | some (.arr vs) => some (vs.map (descOfVideoObj item.id))
          | some (.one _) => none
          | none =>
            if strTruthy (item.data.bind (fun d => d.video_id)) then
              some [descOfDataObj item.id (item.data.getD {})]
            else if strTruthy item.metadata.video_id then
              some [descOfMetaObj item.id item.metadata]
            else some []

/-- Refinement comparator following the specification's wording: exactly six
recognized shapes, in the stated order — (1) single video at the metadata
path, (2) single video at the data path, (3) array of videos under the
metadata path, (4) video object(s) attached directly to the item (singular or
array), (5) a data object containing a video identifier field directly,
(6) a metadata object containing a video identifier field directly.  It has
no branch for an array at the data path (`data.videos`). -/
def specExtractItemVideos (item : LearningItem) : Option (List VideoDesc) :=
  match item.metadata.video with
  | some v => some [descOfVideoObj item.id v]
  | none =>
    match item.data.bind (fun d => d.video) with
    | some v => some [descOfVideoObj item.id v]
    | none =>
      match item.metadata.videos with
      | some (.arr vs) => some (vs.map (descOfVideoObj item.id))
      | _ =>
        match item.videos with
        | some (.arr vs) => some (vs.map (descOfVideoObj item.id))
        | some (.one v) => some [descOfVideoObj item.id v]
        | none =>
          if strTruthy (item.data.bind (fun d => d.video_id)) then
            some [descOfDataObj item.id (item.data.getD {})]
          else if strTruthy item.metadata.video_id then
            some [descOfMetaObj item.id item.metadata]
          else some []

/-- Shape (1): a single video object at `metadata.video`. -/
def shapeMetaVideo (item : LearningItem) : Option (Option (List VideoDesc)) :=
  match item.metadata.video with
  | some v => some (some [descOfVideoObj item.id v])
  | none => none

/-- Shape (2): a single video object at `data.video`. -/
def shapeDataVideo (item : LearningItem) : Option (Option (List VideoDesc)) :=
  match item.data.bind (fun d => d.video) with
  | some v => some (some [descOfVideoObj item.id v])
  | none => none

/-- Shape (3): an array of video objects at `metadata.videos`. -/
def shapeMetaVideosArr (item : LearningItem) : Option (Option (List VideoDesc)) :=
  match item.metadata.videos with
  | some (.arr vs) => some (some (vs.map (descOfVideoObj item.id)))
  | _ => none

/-- Shape (4): video object(s) directly on the item, singular or array. -/
def shapeItemVideos (item : LearningItem) : Option (Option (List VideoDesc)) :=
  match item.videos with
  | some (.arr vs) => some (some (vs.map (descOfVideoObj item.id)))
  | some (.one v) => some (some [descOfVideoObj item.id v])
  | none => none

/-- The extra shape of the source, absent from the specification's list: a
value at `data.videos`, iterated without an array check (a single object
raises, embedded as an inner `none`). -/
def shapeDataVideos (item : LearningItem) : Option (Option (List VideoDesc)) :=
  match item.data.bind (fun d => d.videos) with
  | some (.arr vs) => some (some (vs.map (descOfVideoObj item.id)))
  | some (.one _) => some none
  | none => none

/-- Shape: a truthy `video_id` directly in the data object. -/
def shapeDataVideoId (item : LearningItem) : Option (Option (List VideoDesc)) :=
  if strTruthy (item.data.bind (fun d => d.video_id)) then
    some (some [descOfDataObj item.id (item.data.getD {})])
  else none

/-- Shape: a truthy `video_id` directly in the metadata object. -/
def shapeMetaVideoId (item : LearningItem) : Option (Option (List VideoDesc)) :=
  if strTruthy item.metadata.video_id then
    some (some [descOfMetaObj item.id item.metadata])
  else none

/-- First-match-wins combinator over an ordered list of shape probes: the
outer `Option` is whether the shape matched, the inner one whether extraction
succeeded or raised. -/
def firstShape : List (Option (Option (List VideoDesc))) → Option (List VideoDesc)
  | [] => some []
  | some r :: _ => r
  | none :: rest => firstShape rest

lemma extractItemVideos_tags (item : LearningItem) (ds : List VideoDesc)
    (hds : extractItemVideos item = some ds) :
    ∀ dsc ∈ ds, dsc.itemId = item.id := by
  unfold extractItemVideos at hds
  repeat' split at hds
  all_goals intro dsc hmem
  all_goals simp_all [descOfVideoObj, descOfDataObj, descOfMetaObj]
  all_goals
    rw [← hds] at hmem
  all_goals
    first
      | (simp only [List.mem_singleton] at hmem; rw [hmem])
      | (rw [List.mem_map] at hmem; obtain ⟨v, hv, hveq⟩ := hmem; rw [← hveq])
  all_goals rfl

lemma extractItemVideos_eq_firstShape (item : LearningItem) :
    extractItemVideos item
      = firstShape [shapeMetaVideo item, shapeDataVideo item, shapeMetaVideosArr item,
          shapeItemVideos item, shapeDataVideos item, shapeDataVideoId item,
          shapeMetaVideoId item] := by
  unfold extractItemVideos shapeMetaVideo shapeDataVideo shapeMetaVideosArr
    shapeItemVideos shapeDataVideos shapeDataVideoId shapeMetaVideoId
  repeat' split
  all_goals simp_all [firstShape]

/-- Raw video row whose only payload is an array at `data.videos` — reachable
adapter output used as the C7 counterexample. -/
def c7CexRaw : RawItem :=
  { id := "i9", paper_id := "P1", typ := "video",
    data := some { videos := some (VidsVal.arr [{ video_id := some "abc" }]) },
    created_at := some "c", updated_at := some "u" }

/-- Transformed counterexample item: its `videos` field is null (nothing to
repair from), its `data.videos` array survives the spread. -/
def c7Cex : LearningItem := transformItem "t0" c7CexRaw

/-- C7 counterexample: the source tries a seventh shape — an array at
`data.videos`, probed between the spec's shapes (4) and (5).  The
counterexample item matches none of the six recognized shapes (each of the
six probes returns no match, and the spec-shaped extractor yields zero
descriptors), yet the extraction of the source produces one descriptor from
it — refuting both "exactly the six recognized shapes" and "an item matching
none of the six shapes contributes zero descriptors". -/
theorem C7_counterexample :
    shapeMetaVideo c7Cex = none
    ∧ shapeDataVideo c7Cex = none
    ∧ shapeMetaVideosArr c7Cex = none
    ∧ shapeItemVideos c7Cex = none
    ∧ shapeDataVideoId c7Cex = none
    ∧ shapeMetaVideoId c7Cex = none
    ∧ specExtractItemVideos c7Cex = some []
    ∧ extractItemVideos c7Cex
        = some [{ video_id := some "abc", title := none, channel := none, itemId := "i9" }] := by
  decide

/-- C7 (amended): video payload extraction tries exactly seven shapes in
order — the specification's six, with an extra probe for a value at
`data.videos` between its shapes (4) and (5) — taking the first matching
shape only (never merging shapes); every produced descriptor carries the
owning item's identifier; and an item matching none of the seven shapes
contributes zero descriptors and raises no error. -/
theorem C7_extraction_first_match (item : LearningItem) :
    (extractItemVideos item
      = firstShape [shapeMetaVideo item, shapeDataVideo item, shapeMetaVideosArr item,
          shapeItemVideos item, shapeDataVideos item, shapeDataVideoId item,
          shapeMetaVideoId item])
    ∧ (∀ ds, extractItemVideos item = some ds → ∀ dsc ∈ ds, dsc.itemId = item.id)
    ∧ (shapeMetaVideo item = none → shapeDataVideo item = none →
        shapeMetaVideosArr item = none → shapeItemVideos item = none →
        shapeDataVideos item = none → shapeDataVideoId item = none →
        shapeMetaVideoId item = none → extractItemVideos item = some []) := by
  refine ⟨extractItemVideos_eq_firstShape item, extractItemVideos_tags item, ?_⟩
  intro h1 h2 h3 h4 h5 h6 h7
  rw [extractItemVideos_eq_firstShape item, h1, h2, h3, h4, h5, h6, h7]
  rfl

/-- Raw video row realizing the specification's extraction scenario:
`metadata.video = ⟨video_id "abc"⟩` on item i9. -/
def c7wRaw : RawItem :=
  { id := "i9", paper_id := "P1", typ := "video",
    data := some { metadata := some { video := some { video_id := some "abc" } } },
    created_at := some "c", updated_at := some "u" }

/-- The transformed scenario item. -/
def c7w : LearningItem := transformItem "t0" c7wRaw

/-- The descriptor the scenario extracts. -/
def c7wDesc : VideoDesc :=
  { video_id := some "abc", title := none, channel := none, itemId := "i9" }

/-- Witness for the amended C7: the scenario item extracts exactly one
descriptor, and the tagging clause applied at it yields the owning id. -/
theorem C7_extraction_witness :
    extractItemVideos c7w = some [c7wDesc] ∧ c7wDesc.itemId = c7w.id :=
  ⟨by decide, (C7_extraction_first_match c7w).2.1 [c7wDesc] (by decide) c7wDesc (by simp)⟩

/-! ### Claim C8 — step filtering and the reading re-ordering
(`LearningJourney.tsx`, lines 333-491 of the version with the reading filter) -/

/-- Occurrence of a pattern as a contiguous subsequence of a character list
(the semantics of JS `String.prototype.includes`). -/
def subListOccurs (pat : List Char) : List Char → Bool
  | [] => pat.isEmpty
  | c :: rest => pat.isPrefixOf (c :: rest) || subListOccurs pat rest

/-- JS `s.includes(pat)`. -/
def strIncludes (s pat : String) : Bool :=
  subListOccurs pat.data s.data

/-- A presentational step unit, abstracted to what the filtering code reads of
it: the title its recursive `findLearningStepCard` search produces (empty when
none is found, which is also what the catch-all error handler yields) and the
step component's declared name (`stepElement.type.name`). -/
structure StepUnit where
  title : String
  componentName : String
deriving DecidableEq

/-- The reading classifier (lines 395-407): the if/else chain assigning a step
type and a fixed order — summary 1, concepts 2, methodology 3, results 4 —
from the title or the component name; steps matching no branch are not
reading-related (the source leaves them at order 999 and never pushes them). -/
def readingClass (step : StepUnit) : Option (String × Nat) :=
  if strIncludes step.title "Paper Summary" || step.componentName == "SummaryStep" then
    some ("summary", 1)
  else if strIncludes step.title "Key Concepts" || step.componentName == "KeyConceptsStep" then
    some ("concepts", 2)
  else if strIncludes step.title "Methodology" || step.componentName == "MethodologyStep" then
    some ("methodology", 3)
  else if strIncludes step.title "Results" || step.componentName == "ResultsStep" then
    some ("results", 4)
  else none

/-- One collected reading step: the pushed record `{step, index, type, order}`. -/
structure ReadingEntry where
  step : StepUnit
  index : Nat
  typ : String
  order : Nat
deriving DecidableEq

/-- Collection pass over the enumerated step list: push an entry for every
step the classifier recognizes, in original order. -/
def collectReadingSteps (steps : List StepUnit) : List ReadingEntry :=
  steps.enum.filterMap (fun pair =>
    match readingClass pair.2 with
    | some (t, o) => some { step := pair.2, index := pair.1, typ := t, order := o }
    | none => none)

/-- Stable insertion by the order key: the new entry goes after every entry
whose order does not exceed its own — the behavior of the (stable) JS
`Array.prototype.sort` with the comparator `(a, b) => a.order - b.order`. -/
def insertByOrder (x : ReadingEntry) : List ReadingEntry → List ReadingEntry
  | [] => [x]
  | y :: rest => if x.order < y.order then x :: y :: rest else y :: insertByOrder x rest

/-- Stable sort by the order key (left fold of stable insertions). -/
def sortByOrder (l : List ReadingEntry) : List ReadingEntry :=
  l.foldl (fun acc x => insertByOrder x acc) []

/-- The reading branch of the filter effect (lines 348-425): collect the
reading-related steps, sort them by the fixed order, and expose the steps. -/
def filterStepsReading (steps : List StepUnit) : List StepUnit :=
  (sortByOrder (collectReadingSteps steps)).map (fun e => e.step)

/-- Membership test of the non-reading branches (lines 471-476): title
keyword or component name per active filter; the slides filter has no branch
and matches nothing. -/
def matchesFilter (filt : String) (step : StepUnit) : Bool :=
  (filt == "video" && (strIncludes step.title "Video Explanation"
    || step.componentName == "VideoExplanationStep"))
  || (filt == "quiz" && (strIncludes step.title "Comprehension Quiz"
    || step.componentName == "QuizStep"))
  || (filt == "flashcard" && (strIncludes step.title "Flashcards"
    || step.componentName == "FlashcardsStep"))
  || (filt == "consulting" && (strIncludes step.title "Expert Consulting"
    || step.componentName == "ConsultingStep"))

/-- The filter effect (lines 333-491): the all filter keeps every step, the
reading filter collects and re-orders, every other filter keeps the matching
steps in original order. -/
def filterSteps (filt : String) (steps : List StepUnit) : List StepUnit :=
  if filt == "all" then steps
  else if filt == "reading" then filterStepsReading steps
  else steps.filter (matchesFilter filt)

/-- The entries of a collected list carrying a given order key. -/
def orderFilter (l : List ReadingEntry) (k : Nat) : List ReadingEntry :=
  l.filter (fun e => e.order == k)

lemma mem_orderFilter_order {y : ReadingEntry} {l : List ReadingEntry} {k : Nat}
    (h : y ∈ orderFilter l k) : y.order = k := by
  have := (List.mem_filter.mp h).2
  simpa using this

lemma insertByOrder_of_lt (x : ReadingEntry) (B : List ReadingEntry)
    (h : ∀ y ∈ B, x.order < y.order) : insertByOrder x B = x :: B := by
  cases B with
  | nil => rfl
  | cons b B =>
    unfold insertByOrder
    rw [if_pos (h b (List.mem_cons_self b B))]

lemma insertByOrder_split (x : ReadingEntry) (A B : List ReadingEntry)
    (hA : ∀ y ∈ A, ¬ x.order < y.order) (hB : ∀ y ∈ B, x.order < y.order) :
    insertByOrder x (A ++ B) = A ++ x :: B := by
  induction A with
  | nil => simpa using insertByOrder_of_lt x B hB
  | cons a A ih =>
    rw [List.cons_append]
    unfold insertByOrder
    rw [if_neg (hA a (List.mem_cons_self a A))]
    rw [ih (fun y hy => hA y (List.mem_cons_of_mem a hy)), List.cons_append]

lemma insertByOrder_append_of_ge (x : ReadingEntry) (A B : List ReadingEntry)
    (hA : ∀ y ∈ A, ¬ x.order < y.order) :
    insertByOrder x (A ++ B) = A ++ insertByOrder x B := by
  induction A with
  | nil => rfl
  | cons a A ih =>
    rw [List.cons_append, insertByOrder, if_neg (hA a (List.mem_cons_self a A))]
    rw [ih (fun y hy => hA y (List.mem_cons_of_mem a hy)), List.cons_append]

lemma insertByOrder_all_ge (x : ReadingEntry) (B : List ReadingEntry)
    (hB : ∀ y ∈ B, ¬ x.order < y.order) :
    insertByOrder x B = B ++ [x] := by
  induction B with
  | nil => rfl
  | cons b B ih =>
    unfold insertByOrder
    rw [if_neg (hB b (List.mem_cons_self b B))]
    rw [ih (fun y hy => hB y (List.mem_cons_of_mem b hy)), List.cons_append]

/-- The four blocks of a collected list, in the fixed reading order. -/
def readingBlocks (m : List ReadingEntry) : List ReadingEntry :=
  orderFilter m 1 ++ (orderFilter m 2 ++ (orderFilter m 3 ++ orderFilter m 4))

lemma orderFilter_append_singleton (m : List ReadingEntry) (x : ReadingEntry) (k : Nat) :
    orderFilter (m ++ [x]) k = orderFilter m k ++ if x.order = k then [x] else [] := by
  unfold orderFilter
  rw [List.filter_append]
  by_cases h : x.order = k <;> simp [h]

lemma insertByOrder_readingBlocks (x : ReadingEntry) (m : List ReadingEntry)
    (hx : x.order = 1 ∨ x.order = 2 ∨ x.order = 3 ∨ x.order = 4) :
    insertByOrder x (readingBlocks m) = readingBlocks (m ++ [x]) := by
  have ho1 : ∀ y ∈ orderFilter m 1, y.order = 1 := fun y hy => mem_orderFilter_order hy
  have ho2 : ∀ y ∈ orderFilter m 2, y.order = 2 := fun y hy => mem_orderFilter_order hy
  have ho3 : ∀ y ∈ orderFilter m 3, y.order = 3 := fun y hy => mem_orderFilter_order hy
  have ho4 : ∀ y ∈ orderFilter m 4, y.order = 4 := fun y hy => mem_orderFilter_order hy
  unfold readingBlocks
  rw [orderFilter_append_singleton, orderFilter_append_singleton,
    orderFilter_append_singleton, orderFilter_append_singleton]
  rcases hx with h | h | h | h
  · rw [insertByOrder_split x (orderFilter m 1) (orderFilter m 2 ++ (orderFilter m 3 ++ orderFilter m 4))
      (fun y hy => by have := ho1 y hy; omega)
      (fun y hy => by
        rcases List.mem_append.mp hy with h2 | h34
        · have := ho2 y h2; omega
        · rcases List.mem_append.mp h34 with h3 | h4
          · have := ho3 y h3; omega
          · have := ho4 y h4; omega)]
    simp [h, List.append_assoc]
  · rw [insertByOrder_append_of_ge x (orderFilter m 1) _
      (fun y hy => by have := ho1 y hy; omega)]
    rw [insertByOrder_split x (orderFilter m 2) (orderFilter m 3 ++ orderFilter m 4)
      (fun y hy => by have := ho2 y hy; omega)
      (fun y hy => by
        rcases List.mem_append.mp hy with h3 | h4
        · have := ho3 y h3; omega
        · have := ho4 y h4; omega)]
    simp [h, List.append_assoc]
  · rw [insertByOrder_append_of_ge x (orderFilter m 1) _
      (fun y hy => by have := ho1 y hy; omega)]
    rw [insertByOrder_append_of_ge x (orderFilter m 2) _
      (fun y hy => by have := ho2 y hy; omega)]
    rw [insertByOrder_split x (orderFilter m 3) (orderFilter m 4)
      (fun y hy => by have := ho3 y hy; omega)
      (fun y hy => by have := ho4 y hy; omega)]
    simp [h, List.append_assoc]
  · rw [insertByOrder_append_of_ge x (orderFilter m 1) _
      (fun y hy => by have := ho1 y hy; omega)]
    rw [insertByOrder_append_of_ge x (orderFilter m 2) _
      (fun y hy => by have := ho2 y hy; omega)]
    rw [insertByOrder_append_of_ge x (orderFilter m 3) _
      (fun y hy => by have := ho3 y hy; omega)]
    rw [insertByOrder_all_ge x (orderFilter m 4)
      (fun y hy => by have := ho4 y hy; omega)]
    simp [h, List.append_assoc]

lemma sortByOrder_foldl_blocks :
    ∀ (l m : List ReadingEntry),
      (∀ e ∈ l, e.order = 1 ∨ e.order = 2 ∨ e.order = 3 ∨ e.order = 4) →
      l.foldl (fun acc x => insertByOrder x acc) (readingBlocks m) = readingBlocks (m ++ l)
  | [], m, _ => by simp
  | x :: l, m, h => by
    rw [List.foldl_cons]
    rw [insertByOrder_readingBlocks x m (h x (List.mem_cons_self x l))]
    rw [sortByOrder_foldl_blocks l (m ++ [x]) (fun e he => h e (List.mem_cons_of_mem x he))]
    simp

/-- The stable sort by the reading order groups the entries into the four
fixed blocks, original relative order preserved inside each block. -/
lemma sortByOrder_partition (l : List ReadingEntry)
    (h : ∀ e ∈ l, e.order = 1 ∨ e.order = 2 ∨ e.order = 3 ∨ e.order = 4) :
    sortByOrder l = readingBlocks l := by
  unfold sortByOrder
  have h0 : readingBlocks ([] : List ReadingEntry) = [] := rfl
  rw [← h0]
  simpa using sortByOrder_foldl_blocks l [] h

lemma readingClass_order (step : StepUnit) (t : String) (o : Nat)
    (h : readingClass step = some (t, o)) :
    o = 1 ∨ o = 2 ∨ o = 3 ∨ o = 4 := by
  unfold readingClass at h
  repeat' split at h
  all_goals simp_all

lemma collectReadingSteps_orders (steps : List StepUnit) :
    ∀ e ∈ collectReadingSteps steps, e.order = 1 ∨ e.order = 2 ∨ e.order = 3 ∨ e.order = 4 := by
  intro e he
  unfold collectReadingSteps at he
  rw [List.mem_filterMap] at he
  obtain ⟨pair, _, heq⟩ := he
  rcases hcl : readingClass pair.2 with _ | pr
  · rw [hcl] at heq
    simp at heq
  · obtain ⟨t, o⟩ := pr
    rw [hcl] at heq
    injection heq with h2
    rw [← h2]
    simpa using readingClass_order pair.2 t o hcl

/-- The specification's scenario steps. -/
def c8Summary : StepUnit := { title := "Paper Summary", componentName := "SummaryStep" }

def c8Video : StepUnit := { title := "Video Explanation", componentName := "VideoExplanationStep" }

def c8Results : StepUnit := { title := "Results", componentName := "ResultsStep" }

def c8Concepts : StepUnit := { title := "Key Concepts", componentName := "KeyConceptsStep" }

def c8Steps : List StepUnit := [c8Summary, c8Video, c8Results, c8Concepts]

/-- C8: filtering by the reading category re-orders the matched steps into the
fixed logical sequence summary, concepts, methodology, results — the result is
the concatenation of the four order blocks of the collected reading entries,
each block in original relative order, absent kinds contributing empty blocks —
while every other category filter (including all and the branchless slides)
yields a sublist of the original steps, preserving their relative order; and
the concrete scenario [Summary, Video, Results, Concepts] filtered by reading
yields [Summary, Concepts, Results] with the video step excluded. -/
theorem C8_step_filtering (steps : List StepUnit) (filt : String) :
    (filterSteps "reading" steps
      = (orderFilter (collectReadingSteps steps) 1).map (fun e => e.step)
        ++ (orderFilter (collectReadingSteps steps) 2).map (fun e => e.step)
        ++ (orderFilter (collectReadingSteps steps) 3).map (fun e => e.step)
        ++ (orderFilter (collectReadingSteps steps) 4).map (fun e => e.step))
    ∧ (filt ≠ "reading" → List.Sublist (filterSteps filt steps) steps)
    ∧ filterSteps "reading" c8Steps = [c8Summary, c8Concepts, c8Results] := by
  refine ⟨?_, ?_, by decide⟩
  · unfold filterSteps
    rw [if_neg (by decide), if_pos (by decide)]
    unfold filterStepsReading
    rw [sortByOrder_partition _ (collectReadingSteps_orders steps)]
    unfold readingBlocks
    simp [List.append_assoc]
  · intro hne
    unfold filterSteps
    by_cases hall : filt == "all"
    · rw [if_pos hall]
    · rw [if_neg (by simpa using hall)]
      rw [if_neg (by simpa using hne)]
      exact List.filter_sublist steps

/-- Witness for C8's order-preservation clause at the quiz filter on the
scenario steps. -/
theorem C8_step_filtering_witness :
    List.Sublist (filterSteps "quiz" c8Steps) c8Steps :=
  (C8_step_filtering c8Steps "quiz").2.1 (by decide)
